import Mathlib

/-!
Shallow embedding of the exeio process supervisor (src/main.rs) in Lean 4.

The embedding models:
  * the persistent process definition (`ProcessConfig`) and the in-memory
    supervision record (`ManagedProcess`), with the process registry as an
    association list whose operations mirror HashMap insert/lookup;
  * the restart-delay policy (`calculate_restart_delay`);
  * the auto-restart monitor's exit-observation step (`monitor_observe_exit`);
  * the spawn path (`start_process`, `start_regular_process_effect`) with the
    OS spawn outcome and the log-file open outcome supplied as oracles;
  * the /add handler's validation and reply (`handle_add_process_model`);
  * the API-key gate (`validate_api_key`, `serve_route`) and the route table;
  * the config store (`load_configs`, `save_process_config`,
    `remove_process_config`) over an abstract file state;
  * the log pagination readers (`read_logs_simple`, `read_logs_chunked`,
    `read_logs_reverse_paginated`, `handle_process_logs_model`) over the log
    file content as a list of characters (bytes).

Time is modelled in whole seconds as integers; pids as naturals.  Log-message
text is abridged (quoting and pid suffixes omitted); no claim inspects it.
-/

/-- ASCII whitespace, standing in for the whitespace class used by Rust's
`str::trim` and `str::trim_end`. -/
def isWsChar (c : Char) : Bool :=
  c = ' ' || c = '\t' || c = '\n' || c = '\r'

/-- Rust's `s.trim().is_empty()`: the string has no non-whitespace
character. -/
def blank (s : String) : Bool :=
  s.data.all isWsChar

/-- Mirrors `ProcessStatus` (main.rs lines 69-76). -/
inductive ProcessStatus
  | Running
  | Stopped
  | WaitingForPeriod
  | Failed
  | ManuallyStopped
deriving DecidableEq, Repr

/-- Mirrors `ProcessConfig` (main.rs lines 43-53).  `period_seconds` is `u64`
in the source, hence `Nat` here. -/
structure ProcessConfig where
  id : String
  command : String
  args : List String
  working_dir : Option String
  auto_restart : Bool
  log_file : String
  periodic : Bool
  period_seconds : Option Nat
deriving DecidableEq, Repr

/-- Mirrors `ManagedProcess` (main.rs lines 55-67).  Handles are modelled by
presence flags: `child` is the pid when a child handle is held, `stdin_sender`
and the task handles are booleans recording whether the handle is present. -/
structure ManagedProcess where
  config : ProcessConfig
  child : Option Nat
  stdin_sender : Bool
  run_count : Nat
  last_run : Option Int
  periodic_handle : Bool
  status : ProcessStatus
  auto_restart_handle : Bool
  last_exit_time : Option Int
deriving DecidableEq, Repr

/-- Mirrors `RestartRequest` (main.rs lines 17-22). -/
structure RestartRequest where
  process_id : String
  delay_seconds : Nat
  reason : String
deriving DecidableEq, Repr

/-- The process registry `ProcessMap` (main.rs line 78), modelled as an
association list; `lookup` and `insert_record` give HashMap semantics. -/
def Registry : Type := List (String × ManagedProcess)

instance : DecidableEq Registry := by unfold Registry; infer_instance

/-- `HashMap::get` on the registry. -/
def lookup (reg : Registry) (id : String) : Option ManagedProcess :=
  (List.find? (fun p => p.1 = id) reg).map (fun p => p.2)

/-- `HashMap::insert` on the registry: replaces any record under the same id. -/
def insert_record (reg : Registry) (id : String) (mp : ManagedProcess) : Registry :=
  (id, mp) :: List.filter (fun p => p.1 ≠ id) reg

theorem lookup_insert_self (reg : Registry) (id : String) (mp : ManagedProcess) :
    lookup (insert_record reg id mp) id = some mp := by
  simp [lookup, insert_record, List.find?]

/-- Mirrors `calculate_restart_delay` (main.rs lines 1853-1880).  The chrono
duration arithmetic is modelled in whole seconds: `now - t` plays the role of
`signed_duration_since(last_exit).num_seconds()`. -/
def calculate_restart_delay (run_count : Nat) (last_exit_time : Option Int)
    (now : Int) : Nat :=
  let rapid_restart_penalty : Nat :=
    match last_exit_time with
    | some last_exit => if now - last_exit < 10 then 20 else 0
    | none => 0
  let base_delay : Nat :=
    if run_count ≤ 3 then 2
    else if run_count ≤ 6 then 5
    else if run_count ≤ 10 then 15
    else if run_count ≤ 15 then 30
    else 60
  base_delay + rapid_restart_penalty

/-- The base-delay table exactly as the claim states it (both interval
endpoints spelled out), for comparison with the code's cascade. -/
def claimed_base_delay (n : Nat) : Nat :=
  if n ≤ 3 then 2
  else if 4 ≤ n ∧ n ≤ 6 then 5
  else if 7 ≤ n ∧ n ≤ 10 then 15
  else if 11 ≤ n ∧ n ≤ 15 then 30
  else 60

/-- Reason chosen by the monitor for the restart request
(main.rs lines 1786-1793); quoting and pid suffix abridged. -/
def exit_reason (id : String) (exit_code : Int) : String :=
  if exit_code = 0 then
    "Auto-restarting process " ++ id ++ " after normal exit"
  else if exit_code = 9 ∨ exit_code = 15 then
    "Auto-restarting process " ++ id ++ " after external kill signal"
  else
    "Auto-restarting process " ++ id ++ " after crash"

/-- Reason used when the OS spawn itself fails (main.rs line 676). -/
def failed_start_reason (id : String) : String :=
  "Auto-restarting process " ++ id ++ " after failed start"

/-- Result of the auto-restart monitor's exit observation. -/
structure MonitorResult where
  registry : Registry
  requests : List RestartRequest
  should_restart : Bool
  restart_delay : Nat
  was_manual_stop : Bool
deriving DecidableEq

/-- Mirrors the decision block of `start_auto_restart_monitor` executed when
the child's exit is observed (main.rs lines 1734-1813): record
`last_exit_time`, test the status under the lock, and either schedule a
restart (status still `Running` and `auto_restart` set) or clear the handles,
turning the status to `Stopped` unless it was `ManuallyStopped`.  `now` is the
observation time and `exit_code` the child's exit code. -/
def monitor_observe_exit (reg : Registry) (config : ProcessConfig)
    (now : Int) (exit_code : Int) : MonitorResult :=
  match lookup reg config.id with
  | none => ⟨reg, [], false, 0, false⟩
  | some mp =>
    let mp1 := { mp with last_exit_time := some now }
    let was_manual := mp1.status = ProcessStatus.ManuallyStopped
    if mp1.status = ProcessStatus.Running ∧ config.auto_restart = true then
      let delay := calculate_restart_delay mp1.run_count mp1.last_exit_time now
      let mp2 := { mp1 with
        status := ProcessStatus.Failed
        child := none
        stdin_sender := false
        run_count := mp1.run_count + 1 }
      ⟨insert_record reg config.id mp2,
       [⟨config.id, delay, exit_reason config.id exit_code⟩],
       true, delay, decide was_manual⟩
    else
      let mp2 := { mp1 with
        child := none
        stdin_sender := false
        status := if was_manual then mp1.status else ProcessStatus.Stopped }
      ⟨insert_record reg config.id mp2, [], false, 0, decide was_manual⟩

/-- Effect of a spawn-path invocation on the registry: the registry after the
call, the restart requests it enqueued, and whether an OS child spawn was
attempted. -/
structure SpawnEffect where
  registry : Registry
  requests : List RestartRequest
  spawned : Bool
deriving DecidableEq

/-- Mirrors the registry/dispatcher effects of `start_regular_process`
(main.rs lines 528-684).  `spawn_ok` is the outcome of `cmd.spawn()`, `pid`
the child's pid on success.  On success a `Running` record holding the pumps'
stdin sender is installed with the carried `run_count`; on failure a `Failed`
record with `run_count` hard-coded to 0 is installed and, when
`auto_restart`, a restart request with delay 5 is enqueued. -/
def start_regular_process_effect (reg : Registry) (config : ProcessConfig)
    (run_count : Nat) (spawn_ok : Bool) (pid : Nat) (now : Int) : SpawnEffect :=
  if spawn_ok then
    let mp : ManagedProcess := {
      config := config
      child := some pid
      stdin_sender := true
      run_count := run_count
      last_run := some now
      periodic_handle := false
      status := ProcessStatus.Running
      auto_restart_handle := config.auto_restart
      last_exit_time := none }
    ⟨insert_record reg config.id mp, [], true⟩
  else
    let mp : ManagedProcess := {
      config := config
      child := none
      stdin_sender := false
      run_count := 0
      last_run := none
      periodic_handle := false
      status := ProcessStatus.Failed
      auto_restart_handle := false
      last_exit_time := none }
    ⟨insert_record reg config.id mp,
     if config.auto_restart then [⟨config.id, 5, failed_start_reason config.id⟩] else [],
     false⟩

/-- Mirrors the registry effect of `start_periodic_process`
(main.rs lines 686-816): installs a record with the periodic task handle,
`run_count` 0 and status `WaitingForPeriod`; no immediate child spawn. -/
def start_periodic_process_effect (reg : Registry) (config : ProcessConfig) :
    SpawnEffect :=
  let mp : ManagedProcess := {
    config := config
    child := none
    stdin_sender := false
    run_count := 0
    last_run := none
    periodic_handle := true
    status := ProcessStatus.WaitingForPeriod
    auto_restart_handle := false
    last_exit_time := none }
  ⟨insert_record reg config.id mp, [], false⟩

/-- Mirrors `start_process` (main.rs lines 494-526).  `log_open_ok` is the
outcome of opening the log file in append mode: on failure the function
returns at once, leaving the registry untouched.  Otherwise the current
`run_count` is read from the registry (1 when absent) and the periodic or
regular path is taken. -/
def start_process (reg : Registry) (config : ProcessConfig)
    (log_open_ok : Bool) (spawn_ok : Bool) (pid : Nat) (now : Int) : SpawnEffect :=
  if log_open_ok = false then ⟨reg, [], false⟩
  else
    let current_run_count :=
      match lookup reg config.id with
      | some mp => mp.run_count
      | none => 1
    if config.periodic = true ∧ config.period_seconds.isSome then
      start_periodic_process_effect reg config
    else
      start_regular_process_effect reg config current_run_count spawn_ok pid now

/-- Mirrors `AddProcessRequest` (main.rs lines 80-90). -/
structure AddProcessRequest where
  id : String
  command : String
  args : List String
  working_dir : Option String
  auto_restart : Bool
  save_for_next_run : Bool
  periodic : Option Bool
  period_seconds : Option Nat
deriving DecidableEq, Repr

/-- Outcome of the validation part of `handle_add_process`. -/
inductive AddValidation
  | rejected (message : String)
  | accepted (config : ProcessConfig)
deriving DecidableEq, Repr

/-- Mirrors the validation cascade of `handle_add_process`
(main.rs lines 818-884), in source order: duplicate id, blank id, blank
command, then the periodic checks on the assembled config. -/
def validate_add (reg : Registry) (req : AddProcessRequest)
    (log_path : String) : AddValidation :=
  if (lookup reg req.id).isSome then
    .rejected "duplicate id"
  else if blank req.id = true then
    .rejected "id empty or whitespace"
  else if blank req.command = true then
    .rejected "command empty or whitespace"
  else
    let config : ProcessConfig := {
      id := req.id
      command := req.command
      args := req.args
      working_dir := req.working_dir
      auto_restart := req.auto_restart
      log_file := log_path
      periodic := req.periodic.getD false
      period_seconds := req.period_seconds }
    if config.periodic = true then
      match config.period_seconds with
      | some seconds =>
          if seconds ≤ 0 then .rejected "period_seconds must be greater than zero"
          else .accepted config
      | none => .rejected "periodic requires period_seconds"
    else .accepted config

/-- Mirrors `handle_add_process` end to end (main.rs lines 818-914): validate,
then invoke the spawn path and reply; the reply is `success:true` whenever
validation passed, regardless of the spawn outcome.  Returns the `success`
field of the reply together with the spawn effect. -/
def handle_add_process_model (reg : Registry) (req : AddProcessRequest)
    (log_path : String) (log_open_ok : Bool) (spawn_ok : Bool) (pid : Nat)
    (now : Int) : Bool × SpawnEffect :=
  match validate_add reg req log_path with
  | .rejected _ => (false, ⟨reg, [], false⟩)
  | .accepted config =>
      (true, start_process reg config log_open_ok spawn_ok pid now)

/-- Mirrors `validate_api_key` (main.rs lines 134-139): the request passes
exactly when the optional `exeio-api-key` header equals the expected key. -/
def validate_api_key (provided_key : Option String) (expected_key : String) : Bool :=
  match provided_key with
  | some key => key = expected_key
  | none => false

/-- The JSON error reply produced by `handle_auth_error` for an
`AuthenticationError` rejection (main.rs lines 146-156): HTTP status 401 and
body with `success:false`. -/
structure AuthErrorReply where
  http_status : Nat
  success : Bool
deriving DecidableEq, Repr

def handle_auth_error_reply : AuthErrorReply := ⟨401, false⟩

/-- One route of the warp router (main.rs lines 346-455): its method, leading
path segment, and whether the route composes `with_auth`. -/
structure Route where
  method : String
  path : String
  requires_auth : Bool
deriving DecidableEq, Repr

/-- The route table built in `main` (main.rs lines 346-455): every route
except `GET /info` composes the `with_auth` filter. -/
def routes : List Route :=
  [⟨"POST", "add", true⟩,
   ⟨"POST", "restart", true⟩,
   ⟨"POST", "stop", true⟩,
   ⟨"POST", "remove", true⟩,
   ⟨"POST", "restart-all", true⟩,
   ⟨"POST", "stop-all", true⟩,
   ⟨"POST", "input", true⟩,
   ⟨"POST", "clear-log", true⟩,
   ⟨"GET", "list", true⟩,
   ⟨"GET", "info", false⟩,
   ⟨"GET", "logs", true⟩,
   ⟨"POST", "shutdown", true⟩]

/-- Outcome of serving one request to a route. -/
inductive RouteOutcome
  | handled
  | rejected (reply : AuthErrorReply)
deriving DecidableEq, Repr

/-- Serving a request: a route that composes `with_auth` runs its handler only
when `validate_api_key` passes; otherwise the rejection is recovered by
`handle_auth_error` (main.rs lines 127-166, 441-453). -/
def serve_route (r : Route) (provided_key : Option String)
    (expected_key : String) : RouteOutcome :=
  if r.requires_auth = true ∧ validate_api_key provided_key expected_key = false then
    .rejected handle_auth_error_reply
  else .handled

/-- Abstract state of the config file backing `SafeConfigManager`
(main.rs lines 201-248): missing, present but unparseable, or a stored list. -/
inductive ConfigFile
  | missing
  | corrupt
  | stored (configs : List ProcessConfig)
deriving DecidableEq

/-- Mirrors `SafeConfigManager::load_configs` (main.rs lines 214-221):
the stored list, or the empty list when the file is missing or unparseable. -/
def load_configs : ConfigFile → List ProcessConfig
  | .stored configs => configs
  | _ => []

/-- Mirrors `SafeConfigManager::save_configs` (main.rs lines 223-234):
atomic replace of the file content by the given list. -/
def save_configs (_f : ConfigFile) (configs : List ProcessConfig) : ConfigFile :=
  .stored configs

/-- Mirrors `SafeConfigManager::save_process_config` (main.rs lines 236-241):
load, drop entries with the same id, append, save. -/
def save_process_config (f : ConfigFile) (config : ProcessConfig) : ConfigFile :=
  save_configs f ((List.filter (fun c => c.id ≠ config.id) (load_configs f)) ++ [config])

/-- Mirrors `SafeConfigManager::remove_process_config`
(main.rs lines 243-247): load, filter out the id, save. -/
def remove_process_config (f : ConfigFile) (id : String) : ConfigFile :=
  save_configs f (List.filter (fun c => c.id ≠ id) (load_configs f))

/-- `str::trim_end`: drop trailing whitespace. -/
def rtrim (l : List Char) : List Char :=
  (List.dropWhile isWsChar l.reverse).reverse

/-- The successive chunks returned by `BufRead::read_line`: each chunk
includes its terminating newline; a final unterminated chunk is returned
without one, and the loop stops at end of input. -/
def splitLinesAux : List Char → List Char → List (List Char)
  | [], acc => if acc.isEmpty then [] else [acc.reverse]
  | c :: cs, acc =>
    if c = '\n' then (acc.reverse ++ [c]) :: splitLinesAux cs []
    else splitLinesAux cs (c :: acc)

def readAllLines (content : List Char) : List (List Char) :=
  splitLinesAux content []

/-- The trimmed non-blank lines of the file in file order; `read_logs_simple`
pushes exactly these while reading (main.rs lines 1586-1592). -/
def nonBlankLines (content : List Char) : List (List Char) :=
  List.filter (fun l => !l.isEmpty) ((readAllLines content).map rtrim)

/-- Mirrors `read_logs_simple` (main.rs lines 1577-1605): collect the trimmed
non-blank lines, reverse to newest first, skip `(page-1)*page_size`, take
`page_size`; `total_lines` is the number of non-blank lines in the file. -/
def read_logs_simple (content : List Char) (page page_size : Nat) :
    List (List Char) × Nat :=
  let all_lines := nonBlankLines content
  let total_lines := all_lines.length
  let lines_to_skip := (page - 1) * page_size
  ((all_lines.reverse.drop lines_to_skip).take page_size, total_lines)

def CHUNK_SIZE : Nat := 32768

def SMALL_FILE_LIMIT : Nat := 524288

/-- The counters threaded through `read_logs_chunked`
(main.rs lines 1616-1624). -/
structure ScanState where
  lines : List (List Char)
  total_lines : Nat
  lines_found : Nat
  lines_collected : Nat
deriving DecidableEq, Repr

/-- One step of the backward scan at index `i` of `buffer`
(main.rs lines 1649-1669); returns the updated state and `line_start`. -/
def scanStep (buffer : List Char) (lines_to_skip lines_to_read : Nat)
    (i line_start : Nat) (st : ScanState) : ScanState × Nat :=
  let byte := buffer.getD i ' '
  if byte = '\n' ∨ i = 0 then
    let line_end := if byte = '\n' then line_start else buffer.length
    let actual_start := if byte = '\n' ∧ 0 < i then i + 1 else i
    let st' :=
      if actual_start < line_end then
        let trimmed_line := rtrim ((buffer.drop actual_start).take (line_end - actual_start))
        if trimmed_line.isEmpty = false then
          if lines_to_skip < st.lines_found + 1 ∧ st.lines_collected < lines_to_read then
            { lines := st.lines ++ [trimmed_line]
              total_lines := st.total_lines + 1
              lines_found := st.lines_found + 1
              lines_collected := st.lines_collected + 1 }
          else
            { st with
              total_lines := st.total_lines + 1
              lines_found := st.lines_found + 1 }
        else st
      else st
    (st', i)
  else (st, line_start)

/-- The backward scan `for (i, &byte) in buffer.iter().enumerate().rev()`
(main.rs lines 1649-1670), from index `i` down to 0. -/
def scanBuffer (buffer : List Char) (lines_to_skip lines_to_read : Nat) :
    Nat → Nat → ScanState → ScanState × Nat
  | 0, line_start, st => scanStep buffer lines_to_skip lines_to_read 0 line_start st
  | i + 1, line_start, st =>
    let p := scanStep buffer lines_to_skip lines_to_read (i + 1) line_start st
    scanBuffer buffer lines_to_skip lines_to_read i p.2 p.1

/-- `chunk_start` for the current `pos` (main.rs line 1629). -/
def chunkStartOf (pos : Nat) : Nat :=
  if CHUNK_SIZE ≤ pos then pos - CHUNK_SIZE else 0

/-- The chunk `content[chunk_start..pos]` read in one iteration
(main.rs lines 1632-1635). -/
def chunkOf (content : List Char) (pos : Nat) : List Char :=
  (content.drop (chunkStartOf pos)).take (pos - chunkStartOf pos)

/-- The while loop of `read_logs_chunked` (main.rs lines 1628-1685): prepend
the next chunk to the carried buffer, scan it backwards, keep
`buffer[..line_start]` for the next iteration, and move `pos` to the chunk
start.  `fuel` only bounds the number of iterations; since `pos` strictly
decreases by at least one per iteration, `pos + 1` iterations always reach
the loop exit, so `read_logs_chunked` passes `content.length + 1`
(`chunkLoop_fuel_irrelevant` below shows any fuel above `pos` gives the same
result).  The source's in-loop early break fires only when `pos == 0`, where
the loop guard stops anyway, so it is not modelled separately. -/
def chunkLoop (content : List Char) (lines_to_skip lines_to_read : Nat) :
    Nat → Nat → List Char → ScanState → ScanState
  | 0, _, _, st => st
  | fuel + 1, pos, buffer, st =>
    if 0 < pos ∧ (st.lines_collected < lines_to_read ∨ st.total_lines = 0) then
      let buf := chunkOf content pos ++ buffer
      let p := scanBuffer buf lines_to_skip lines_to_read (buf.length - 1) buf.length st
      chunkLoop content lines_to_skip lines_to_read fuel (chunkStartOf pos) (buf.take p.2) p.1
    else st

/-- Mirrors `read_logs_chunked` (main.rs lines 1607-1689). -/
def read_logs_chunked (content : List Char) (page page_size : Nat) :
    List (List Char) × Nat :=
  let lines_to_skip := (page - 1) * page_size
  let st := chunkLoop content lines_to_skip page_size
    (content.length + 1) content.length [] ⟨[], 0, 0, 0⟩
  (st.lines.reverse, st.total_lines)

/-- Mirrors `read_logs_reverse_paginated` (main.rs lines 1556-1575): empty
file short-circuit, the simple reader for files under 512 KB or pages up to
3, the chunked reader otherwise. -/
def read_logs_reverse_paginated (content : List Char) (page page_size : Nat) :
    List (List Char) × Nat :=
  if content.length = 0 then ([], 0)
  else if content.length < SMALL_FILE_LIMIT ∨ page ≤ 3 then
    read_logs_simple content page page_size
  else
    read_logs_chunked content page page_size

/-- Mirrors `handle_process_logs` (main.rs lines 1268-1305) for a process
whose log file holds `content`: default page 1 and page_size 50, clamp both
to at least 1, read, and reply with `(logs, total_lines, page, page_size)`. -/
def handle_process_logs_model (content : List Char)
    (page_param page_size_param : Option Nat) :
    List (List Char) × Nat × Nat × Nat :=
  let page := max (page_param.getD 1) 1
  let page_size := max (page_size_param.getD 50) 1
  let r := read_logs_reverse_paginated content page page_size
  (r.1, r.2, page, page_size)

/-- The /logs response the claim specifies: the file's non-blank lines in
newest-first order after skipping `(page-1)*page_size` and taking
`page_size`, with `total_lines` the number of non-blank lines in the whole
file. -/
def claimed_logs_page (content : List Char) (page page_size : Nat) :
    List (List Char) × Nat :=
  (((nonBlankLines content).reverse.drop ((page - 1) * page_size)).take page_size,
   (nonBlankLines content).length)

/-- Claim C2: for every run_count `n` and recorded previous-exit timestamp
`t`, the restart delay equals the claimed base table (2 s for n ≤ 3, 5 s for
4-6, 15 s for 7-10, 30 s for 11-15, 60 s for n ≥ 16) plus a penalty of exactly
20 s when `now - t < 10` and 0 otherwise, and 0 penalty when no previous exit
is recorded; consequently the delay is non-decreasing in `n` for fixed `t`. -/
theorem C2_restart_delay_policy (n m : Nat) (t now : Int) (hnm : n ≤ m) :
    calculate_restart_delay n (some t) now
      = claimed_base_delay n + (if now - t < 10 then 20 else 0)
    ∧ calculate_restart_delay n none now = claimed_base_delay n
    ∧ calculate_restart_delay n (some t) now ≤ calculate_restart_delay m (some t) now
    ∧ calculate_restart_delay n none now ≤ calculate_restart_delay m none now := by
  unfold calculate_restart_delay claimed_base_delay
  refine ⟨?_, ?_, ?_, ?_⟩ <;> simp only [] <;> split_ifs <;> omega

theorem C2_restart_delay_policy_witness :
    calculate_restart_delay 2 (some 0) 5 = claimed_base_delay 2 + 20
    ∧ calculate_restart_delay 2 (some 0) 5 ≤ calculate_restart_delay 7 (some 0) 5 := by
  have h := C2_restart_delay_policy 2 7 0 5 (by decide)
  refine ⟨?_, h.2.2.1⟩
  rw [h.1]
  decide

/-- Claim C3: if the record's status is `ManuallyStopped` at the moment the
auto-restart monitor observes the child's exit, the monitor clears the child
handle and the stdin queue, leaves the status `ManuallyStopped`, and enqueues
no restart request, even when the definition has `auto_restart = true`. -/
theorem C3_manual_stop_suppresses_restart (reg : Registry) (config : ProcessConfig)
    (mp : ManagedProcess) (now exit_code : Int)
    (hfind : lookup reg config.id = some mp)
    (hstat : mp.status = ProcessStatus.ManuallyStopped) :
    (monitor_observe_exit reg config now exit_code).requests = []
    ∧ (monitor_observe_exit reg config now exit_code).should_restart = false
    ∧ lookup (monitor_observe_exit reg config now exit_code).registry config.id
        = some { mp with last_exit_time := some now, child := none, stdin_sender := false }
    ∧ (ManagedProcess.status
        { mp with last_exit_time := some now, child := none, stdin_sender := false })
        = ProcessStatus.ManuallyStopped := by
  unfold monitor_observe_exit
  rw [hfind]
  simp [hstat, lookup_insert_self]

theorem C3_manual_stop_suppresses_restart_witness :
    (monitor_observe_exit
        [("w", { config := ⟨"w", "run", [], none, true, "w.log", false, none⟩,
                 child := none, stdin_sender := true, run_count := 3,
                 last_run := none, periodic_handle := false,
                 status := ProcessStatus.ManuallyStopped,
                 auto_restart_handle := false, last_exit_time := none })]
        ⟨"w", "run", [], none, true, "w.log", false, none⟩ 100 1).requests = []
    ∧ (monitor_observe_exit
        [("w", { config := ⟨"w", "run", [], none, true, "w.log", false, none⟩,
                 child := none, stdin_sender := true, run_count := 3,
                 last_run := none, periodic_handle := false,
                 status := ProcessStatus.ManuallyStopped,
                 auto_restart_handle := false, last_exit_time := none })]
        ⟨"w", "run", [], none, true, "w.log", false, none⟩ 100 1).should_restart = false := by
  have h := C3_manual_stop_suppresses_restart
    [("w", { config := ⟨"w", "run", [], none, true, "w.log", false, none⟩,
             child := none, stdin_sender := true, run_count := 3,
             last_run := none, periodic_handle := false,
             status := ProcessStatus.ManuallyStopped,
             auto_restart_handle := false, last_exit_time := none })]
    ⟨"w", "run", [], none, true, "w.log", false, none⟩
    ({ config := ⟨"w", "run", [], none, true, "w.log", false, none⟩,
       child := none, stdin_sender := true, run_count := 3,
       last_run := none, periodic_handle := false,
       status := ProcessStatus.ManuallyStopped,
       auto_restart_handle := false, last_exit_time := none }) 100 1 (by decide) rfl
  exact ⟨h.1, h.2.1⟩

def c4_config : ProcessConfig :=
  ⟨"worker", "run", [], none, false, "worker.log", false, none⟩

def c4_record : ManagedProcess :=
  { config := c4_config, child := none, stdin_sender := false, run_count := 5,
    last_run := none, periodic_handle := false, status := ProcessStatus.Failed,
    auto_restart_handle := false, last_exit_time := none }

/-- Claim C4 (failing-input evaluation): a record for id `worker` holds
`run_count = 5`; a spawn attempt for that definition fails at the OS level,
and the re-inserted record holds `run_count = 0` — the spawn failure resets
`run_count` downward, and the attempt did not increment it, contradicting
monotonicity of `run_count` and the increment-per-attempt rule. -/
theorem C4_run_count_reset_on_failed_spawn :
    ((lookup [("worker", c4_record)] "worker").map (fun mp => mp.run_count) = some 5)
    ∧ ((lookup (start_process [("worker", c4_record)] c4_config true false 7 0).registry
        "worker").map (fun mp => mp.run_count) = some 0) := by
  exact ⟨rfl, rfl⟩

/-- Claim C8: whenever the OS fails to spawn a non-periodic child for a
definition, a record for that id with status `Failed` is installed in the
registry, and if the definition has `auto_restart = true` a restart request
for that id with delay 5 seconds is enqueued to the restart dispatcher. -/
theorem C8_failed_spawn_effect (reg : Registry) (config : ProcessConfig)
    (pid : Nat) (now : Int) (hp : config.periodic = false) :
    ((lookup (start_process reg config true false pid now).registry config.id).map
        (fun mp => mp.status) = some ProcessStatus.Failed)
    ∧ (config.auto_restart = true →
        (start_process reg config true false pid now).requests
          = [⟨config.id, 5, failed_start_reason config.id⟩]) := by
  unfold start_process start_regular_process_effect
  simp [hp, lookup_insert_self]

theorem C8_failed_spawn_effect_witness :
    ((lookup (start_process [] ⟨"w", "run", [], none, true, "w.log", false, none⟩
        true false 7 0).registry "w").map (fun mp => mp.status)
      = some ProcessStatus.Failed)
    ∧ ((start_process [] ⟨"w", "run", [], none, true, "w.log", false, none⟩
        true false 7 0).requests = [⟨"w", 5, failed_start_reason "w"⟩]) := by
  have h := C8_failed_spawn_effect [] ⟨"w", "run", [], none, true, "w.log", false, none⟩
    7 0 rfl
  exact ⟨h.1, h.2 rfl⟩

/-- Claim C10: if opening the definition's log file in append mode fails at
the start of the spawn path, `start_process` returns immediately — the
registry is unchanged, no child is spawned, no restart is scheduled — yet
`handle_add_process` still replies with `success:true` for that request. -/
theorem C10_log_open_failure_still_success (reg : Registry)
    (req : AddProcessRequest) (log_path : String) (config : ProcessConfig)
    (spawn_ok : Bool) (pid : Nat) (now : Int)
    (hv : validate_add reg req log_path = .accepted config) :
    handle_add_process_model reg req log_path false spawn_ok pid now
      = (true, ⟨reg, [], false⟩) := by
  unfold handle_add_process_model
  rw [hv]
  rfl

theorem C10_log_open_failure_still_success_witness :
    handle_add_process_model [] ⟨"w", "run", [], none, false, false, none, none⟩
        "w.log" false true 7 0
      = (true, ⟨[], [], false⟩) := by
  exact C10_log_open_failure_still_success [] ⟨"w", "run", [], none, false, false, none, none⟩
    "w.log" ⟨"w", "run", [], none, false, "w.log", false, none⟩ true 7 0 (by decide)

theorem filter_eq_of_filter_ne (l : List ProcessConfig) (s : String) :
    List.filter (fun c => c.id = s) (List.filter (fun c => c.id ≠ s) l) = [] := by
  induction l with
  | nil => rfl
  | cons a l ih => by_cases h : a.id = s <;> simp [h, ih]

theorem filter_ne_idem (l : List ProcessConfig) (s : String) :
    List.filter (fun c => c.id ≠ s) (List.filter (fun c => c.id ≠ s) l)
      = List.filter (fun c => c.id ≠ s) l := by
  induction l with
  | nil => rfl
  | cons a l ih => by_cases h : a.id = s <;> simp [h, ih]

/-- Claim C9: after `upsert(d)` the loaded list holds exactly one entry with
d's id, equal to `d`, and entries with other ids are unchanged; after
`delete(id)` the loaded list holds no entry with that id and all other entries
are unchanged; `load()` returns the empty list when the file is missing or
unparseable. -/
theorem C9_config_store_roundtrip (f : ConfigFile) (d : ProcessConfig) (i : String) :
    (List.filter (fun c => c.id = d.id) (load_configs (save_process_config f d)) = [d])
    ∧ (List.filter (fun c => c.id ≠ d.id) (load_configs (save_process_config f d))
        = List.filter (fun c => c.id ≠ d.id) (load_configs f))
    ∧ (List.filter (fun c => c.id = i) (load_configs (remove_process_config f i)) = [])
    ∧ (load_configs (remove_process_config f i)
        = List.filter (fun c => c.id ≠ i) (load_configs f))
    ∧ load_configs ConfigFile.missing = [] ∧ load_configs ConfigFile.corrupt = [] := by
  refine ⟨?_, ?_, ?_, rfl, rfl, rfl⟩
  · show List.filter _ (List.filter (fun c => c.id ≠ d.id) (load_configs f) ++ [d]) = [d]
    rw [List.filter_append, filter_eq_of_filter_ne]
    simp
  · show List.filter _ (List.filter (fun c => c.id ≠ d.id) (load_configs f) ++ [d]) = _
    rw [List.filter_append, filter_ne_idem]
    simp
  · exact filter_eq_of_filter_ne (load_configs f) i

theorem routes_auth_complete :
    ∀ r ∈ routes, r.path ≠ "info" → r.requires_auth = true := by
  decide

/-- Claim C7: for every route except `GET /info`, a request whose
`exeio-api-key` header is missing or differs from the secret is rejected with
HTTP 401 and a body whose success field is false, without running the
handler; a request whose header equals the secret is not rejected by
authentication. -/
theorem C7_auth_required_except_info (r : Route) (provided_key : Option String)
    (secret : String) (hr : r ∈ routes) :
    (r.path ≠ "info" → provided_key ≠ some secret →
        serve_route r provided_key secret = .rejected ⟨401, false⟩)
    ∧ (provided_key = some secret → serve_route r provided_key secret = .handled) := by
  constructor
  · intro hinfo hkey
    have hauth := routes_auth_complete r hr hinfo
    have hval : validate_api_key provided_key secret = false := by
      cases provided_key with
      | none => rfl
      | some k =>
        have hne : ¬ k = secret := fun h => hkey (by rw [h])
        simp [validate_api_key, hne]
    unfold serve_route
    rw [if_pos ⟨hauth, hval⟩]
    rfl
  · intro hkey
    subst hkey
    have hval : validate_api_key (some secret) secret = true := by
      simp [validate_api_key]
    unfold serve_route
    rw [if_neg (by rintro ⟨-, hv⟩; rw [hval] at hv; exact Bool.noConfusion hv)]

theorem C7_auth_required_except_info_witness :
    serve_route ⟨"GET", "list", true⟩ none "secret" = .rejected ⟨401, false⟩
    ∧ serve_route ⟨"GET", "list", true⟩ (some "secret") "secret" = .handled := by
  refine ⟨?_, ?_⟩
  · exact (C7_auth_required_except_info ⟨"GET", "list", true⟩ none "secret"
      (by decide)).1 (by decide) (by simp)
  · exact (C7_auth_required_except_info ⟨"GET", "list", true⟩ (some "secret") "secret"
      (by decide)).2 rfl

/-- Claim C6: /add replies `success:false`, leaves the registry unchanged,
and spawns nothing exactly when the id is blank, the command is blank, the id
already exists in the registry, or periodic is requested with
`period_seconds` absent or zero; every other request gets `success:true`. -/
theorem C6_add_validation (reg : Registry) (req : AddProcessRequest)
    (log_path : String) (log_open_ok spawn_ok : Bool) (pid : Nat) (now : Int) :
    ((handle_add_process_model reg req log_path log_open_ok spawn_ok pid now).1 = false
      ↔ (blank req.id = true ∨ blank req.command = true
         ∨ (lookup reg req.id).isSome = true
         ∨ (req.periodic.getD false = true
            ∧ (req.period_seconds = none ∨ req.period_seconds = some 0))))
    ∧ ((handle_add_process_model reg req log_path log_open_ok spawn_ok pid now).1 = false →
        (handle_add_process_model reg req log_path log_open_ok spawn_ok pid now).2
          = ⟨reg, [], false⟩) := by
  unfold handle_add_process_model validate_add
  by_cases h1 : (lookup reg req.id).isSome = true
  · simp [h1]
  · by_cases h2 : blank req.id = true
    · simp [h1, h2]
    · by_cases h3 : blank req.command = true
      · simp [h1, h2, h3]
      · by_cases h4 : req.periodic.getD false = true
        · rcases hps : req.period_seconds with _ | s
          · simp [h1, h2, h3, h4, hps]
          · by_cases h5 : s = 0
            · simp [h1, h2, h3, h4, hps, h5]
            · simp [h1, h2, h3, h4, hps, h5, Nat.le_zero]
        · simp [h1, h2, h3, h4]

def c1_content : List Char := ['a', '\n', 'b', '\n']

theorem getD_replicate (c d : Char) : ∀ (k i : Nat), i < k →
    (List.replicate k c).getD i d = c
  | k + 1, 0, _ => by rw [List.replicate_succ, List.getD_cons_zero]
  | k + 1, i + 1, h => by
      rw [List.replicate_succ, List.getD_cons_succ]
      exact getD_replicate c d k i (Nat.lt_of_succ_lt_succ h)

theorem rtrim_append_nl (l : List Char) : rtrim (l ++ ['\n']) = rtrim l := by
  unfold rtrim
  rw [List.reverse_append]
  rw [show (['\n'] : List Char).reverse = ['\n'] from rfl]
  rw [List.singleton_append, List.dropWhile_cons]
  rw [if_pos (show isWsChar '\n' = true from rfl)]

theorem rtrim_replicate_x (k : Nat) : rtrim (List.replicate k 'x') = List.replicate k 'x' := by
  cases k with
  | zero => rfl
  | succ n =>
    unfold rtrim
    rw [List.reverse_replicate, List.replicate_succ, List.dropWhile_cons]
    rw [if_neg (by decide : ¬ (isWsChar 'x' = true))]
    rw [← List.replicate_succ, List.reverse_replicate]

theorem chunkStartOf_lt (pos : Nat) (h : 0 < pos) : chunkStartOf pos < pos := by
  unfold chunkStartOf CHUNK_SIZE
  split_ifs with hc
  · omega
  · exact h

theorem chunkLoop_succ (content : List Char) (s r fuel pos : Nat) (buffer : List Char)
    (st : ScanState) (h : 0 < pos ∧ (st.lines_collected < r ∨ st.total_lines = 0)) :
    chunkLoop content s r (fuel + 1) pos buffer st =
      chunkLoop content s r fuel (chunkStartOf pos)
        ((chunkOf content pos ++ buffer).take
          (scanBuffer (chunkOf content pos ++ buffer) s r
            ((chunkOf content pos ++ buffer).length - 1)
            (chunkOf content pos ++ buffer).length st).2)
        (scanBuffer (chunkOf content pos ++ buffer) s r
            ((chunkOf content pos ++ buffer).length - 1)
            (chunkOf content pos ++ buffer).length st).1 := by
  rw [chunkLoop, if_pos h]

theorem chunkLoop_exit (content : List Char) (s r fuel pos : Nat) (buffer : List Char)
    (st : ScanState) (h : ¬ (0 < pos ∧ (st.lines_collected < r ∨ st.total_lines = 0))) :
    chunkLoop content s r (fuel + 1) pos buffer st = st := by
  rw [chunkLoop, if_neg h]

theorem chunkLoop_fuel_irrelevant (content : List Char) (s r : Nat) :
    ∀ (pos fuel fuel' : Nat), pos ≤ fuel → pos ≤ fuel' →
    ∀ (buffer : List Char) (st : ScanState),
    chunkLoop content s r fuel pos buffer st = chunkLoop content s r fuel' pos buffer st := by
  intro pos
  induction pos using Nat.strong_induction_on with
  | _ pos ih =>
    intro fuel fuel' hf hf' buffer st
    match fuel, fuel' with
    | 0, 0 => rfl
    | 0, f' + 1 =>
      have hp : pos = 0 := Nat.le_zero.mp hf
      subst hp
      rw [chunkLoop_exit content s r f' 0 buffer st
        (by rintro ⟨h, -⟩; exact Nat.lt_irrefl 0 h)]
      rfl
    | f + 1, 0 =>
      have hp : pos = 0 := Nat.le_zero.mp hf'
      subst hp
      rw [chunkLoop_exit content s r f 0 buffer st
        (by rintro ⟨h, -⟩; exact Nat.lt_irrefl 0 h)]
      rfl
    | f + 1, f' + 1 =>
      by_cases hcond : 0 < pos ∧ (st.lines_collected < r ∨ st.total_lines = 0)
      · rw [chunkLoop_succ content s r f pos buffer st hcond,
            chunkLoop_succ content s r f' pos buffer st hcond]
        have hlt := chunkStartOf_lt pos hcond.1
        exact ih (chunkStartOf pos) hlt f f' (by omega) (by omega) _ _
      · rw [chunkLoop_exit content s r f pos buffer st hcond,
            chunkLoop_exit content s r f' pos buffer st hcond]

theorem scanStep_skip (buffer : List Char) (s r i ls : Nat) (st : ScanState)
    (h1 : buffer.getD i ' ' ≠ '\n') (h2 : i ≠ 0) :
    scanStep buffer s r i ls st = (st, ls) := by
  simp only [scanStep]
  rw [if_neg]
  rintro (h | h)
  · exact h1 h
  · exact h2 h

theorem scanStep_zero (buffer : List Char) (s r ls : Nat) (st : ScanState)
    (h0 : buffer.getD 0 ' ' ≠ '\n') (hne : buffer ≠ [])
    (ht : (rtrim buffer).isEmpty = false) :
    scanStep buffer s r 0 ls st =
      (if s < st.lines_found + 1 ∧ st.lines_collected < r then
        { lines := st.lines ++ [rtrim buffer]
          total_lines := st.total_lines + 1
          lines_found := st.lines_found + 1
          lines_collected := st.lines_collected + 1 }
       else { st with
          total_lines := st.total_lines + 1
          lines_found := st.lines_found + 1 }, 0) := by
  simp only [scanStep]
  rw [if_pos (Or.inr trivial)]
  rw [if_neg h0]
  rw [if_neg (show ¬ (buffer.getD 0 ' ' = '\n' ∧ 0 < 0) from by
    rintro ⟨-, h⟩; exact Nat.lt_irrefl 0 h)]
  rw [List.drop_zero, Nat.sub_zero, List.take_length]
  rw [if_pos (show 0 < buffer.length from by
    cases buffer with
    | nil => exact absurd rfl hne
    | cons a l => simp)]
  rw [if_pos ht]

theorem scanBuffer_skip_to_zero (buffer : List Char) (s r : Nat) :
    ∀ (i ls : Nat) (st : ScanState),
    (∀ j, 1 ≤ j → j ≤ i → buffer.getD j ' ' ≠ '\n') →
    scanBuffer buffer s r i ls st = scanStep buffer s r 0 ls st := by
  intro i
  induction i with
  | zero => intro ls st _; rfl
  | succ n ih =>
    intro ls st h
    rw [scanBuffer]
    rw [scanStep_skip buffer s r (n + 1) ls st (h (n + 1) (by omega) (le_refl _)) (by omega)]
    exact ih ls st (fun j hj1 hj2 => h j hj1 (by omega))

theorem scanBuffer_replicate_x (k s r : Nat) (hk : 0 < k) (st : ScanState) :
    scanBuffer (List.replicate k 'x') s r (k - 1) k st =
      (if s < st.lines_found + 1 ∧ st.lines_collected < r then
        { lines := st.lines ++ [List.replicate k 'x']
          total_lines := st.total_lines + 1
          lines_found := st.lines_found + 1
          lines_collected := st.lines_collected + 1 }
       else { st with
          total_lines := st.total_lines + 1
          lines_found := st.lines_found + 1 }, 0) := by
  rw [scanBuffer_skip_to_zero (List.replicate k 'x') s r (k - 1) k st
    (fun j hj1 hj2 => by
      rw [getD_replicate 'x' ' ' k j (by omega)]
      decide)]
  rw [scanStep_zero (List.replicate k 'x') s r k st
    (by rw [getD_replicate 'x' ' ' k 0 hk]; decide)
    (by cases k with
      | zero => exact absurd hk (by omega)
      | succ n => rw [List.replicate_succ]; exact List.cons_ne_nil _ _)
    (by rw [rtrim_replicate_x]
        cases k with
        | zero => exact absurd hk (by omega)
        | succ n => rw [List.replicate_succ, List.isEmpty_cons])]
  rw [rtrim_replicate_x]

theorem scanBuffer_replicate_x_nl (k s r : Nat) (hk : 0 < k) (st : ScanState) :
    scanBuffer (List.replicate k 'x' ++ ['\n']) s r k (k + 1) st =
      (if s < st.lines_found + 1 ∧ st.lines_collected < r then
        { lines := st.lines ++ [List.replicate k 'x']
          total_lines := st.total_lines + 1
          lines_found := st.lines_found + 1
          lines_collected := st.lines_collected + 1 }
       else { st with
          total_lines := st.total_lines + 1
          lines_found := st.lines_found + 1 }, 0) := by
  obtain ⟨m, rfl⟩ : ∃ m, k = m + 1 := ⟨k - 1, by omega⟩
  have hbyte : (List.replicate (m + 1) 'x' ++ ['\n']).getD (m + 1) ' ' = '\n' := by
    rw [List.getD_append_right _ _ _ _ (by rw [List.length_replicate])]
    rw [List.length_replicate, Nat.sub_self, List.getD_cons_zero]
  have hstep : scanStep (List.replicate (m + 1) 'x' ++ ['\n']) s r (m + 1) (m + 1 + 1) st
      = (st, m + 1) := by
    simp only [scanStep]
    rw [hbyte]
    rw [if_pos (Or.inl rfl)]
    rw [if_pos (rfl : ('\n':Char) = '\n')]
    rw [if_pos (show ('\n':Char) = '\n' ∧ 0 < m + 1 from ⟨rfl, Nat.succ_pos m⟩)]
    rw [if_neg (Nat.lt_irrefl (m + 1 + 1))]
  rw [scanBuffer, hstep]
  rw [scanBuffer_skip_to_zero (List.replicate (m + 1) 'x' ++ ['\n']) s r m (m + 1) st
    (fun j hj1 hj2 => by
      rw [List.getD_append _ _ _ _ (by rw [List.length_replicate]; omega)]
      rw [getD_replicate 'x' ' ' (m + 1) j (by omega)]
      decide)]
  rw [scanStep_zero (List.replicate (m + 1) 'x' ++ ['\n']) s r (m + 1) st
    (by rw [List.getD_append _ _ _ _ (by rw [List.length_replicate]; omega)]
        rw [getD_replicate 'x' ' ' (m + 1) 0 (by omega)]
        decide)
    (by rw [List.replicate_succ]; exact List.cons_ne_nil _ _)
    (by rw [rtrim_append_nl, rtrim_replicate_x, List.replicate_succ, List.isEmpty_cons])]
  rw [rtrim_append_nl, rtrim_replicate_x]

/-- A 512 KB log file consisting of one line of 524287 `x` characters and a
terminating newline: large enough for `read_logs_reverse_paginated` to take
the chunked path when page > 3. -/
def bigContent : List Char := List.replicate 524287 'x' ++ ['\n']

theorem bigContent_length : bigContent.length = 524288 := by
  unfold bigContent
  rw [List.length_append, List.length_replicate]
  rfl

theorem drop_bigContent (n : Nat) (h : n ≤ 524287) :
    bigContent.drop n = List.replicate (524287 - n) 'x' ++ ['\n'] := by
  unfold bigContent
  rw [List.drop_append_eq_append_drop, List.drop_replicate, List.length_replicate]
  rw [show n - 524287 = 0 from by omega]
  rfl

theorem chunkOf_big_first :
    chunkOf bigContent 524288 = List.replicate 32767 'x' ++ ['\n'] := by
  unfold chunkOf
  rw [show chunkStartOf 524288 = 491520 from by unfold chunkStartOf CHUNK_SIZE; norm_num]
  rw [drop_bigContent 491520 (by norm_num)]
  rw [show (524287:Nat) - 491520 = 32767 from by norm_num]
  rw [show (524288:Nat) - 491520 = 32768 from by norm_num]
  rw [List.take_of_length_le (by rw [List.length_append, List.length_replicate]; norm_num)]

theorem chunkOf_big_mid (pos : Nat) (h1 : 32768 ≤ pos) (h2 : pos ≤ 524287) :
    chunkOf bigContent pos = List.replicate 32768 'x' := by
  unfold chunkOf
  rw [show chunkStartOf pos = pos - 32768 from by
    unfold chunkStartOf CHUNK_SIZE; rw [if_pos h1]]
  rw [drop_bigContent (pos - 32768) (by omega)]
  rw [show pos - (pos - 32768) = 32768 from by omega]
  rw [List.take_append_eq_append_take]
  rw [List.take_replicate, List.length_replicate]
  rw [show (32768:Nat) ⊓ (524287 - (pos - 32768)) = 32768 from by omega]
  rw [show (32768:Nat) - (524287 - (pos - 32768)) = 0 from by omega]
  rw [List.take_zero, List.append_nil]

theorem chunked_eval_bigContent :
    read_logs_chunked bigContent 4 1 = ([List.replicate 32768 'x'], 4) := by
  have hs1 : scanBuffer (List.replicate 32767 'x' ++ ['\n']) 3 1
      ((List.replicate 32767 'x' ++ ['\n']).length - 1)
      (List.replicate 32767 'x' ++ ['\n']).length ⟨[], 0, 0, 0⟩
      = (⟨[], 1, 1, 0⟩, 0) := by
    rw [show (List.replicate 32767 'x' ++ ['\n']).length = 32767 + 1 from by
      rw [List.length_append, List.length_replicate]
      rfl]
    rw [show (32767 + 1 : Nat) - 1 = 32767 from rfl]
    rw [scanBuffer_replicate_x_nl 32767 3 1 (by norm_num) ⟨[], 0, 0, 0⟩]
    rw [if_neg (by norm_num)]
  have hs1a : (scanBuffer (List.replicate 32767 'x' ++ ['\n']) 3 1
      ((List.replicate 32767 'x' ++ ['\n']).length - 1)
      (List.replicate 32767 'x' ++ ['\n']).length ⟨[], 0, 0, 0⟩).1 = ⟨[], 1, 1, 0⟩ := by
    rw [hs1]
  have hs1b : (scanBuffer (List.replicate 32767 'x' ++ ['\n']) 3 1
      ((List.replicate 32767 'x' ++ ['\n']).length - 1)
      (List.replicate 32767 'x' ++ ['\n']).length ⟨[], 0, 0, 0⟩).2 = 0 := by
    rw [hs1]
  have hs2 : scanBuffer (List.replicate 32768 'x') 3 1
      ((List.replicate 32768 'x').length - 1)
      (List.replicate 32768 'x').length ⟨[], 1, 1, 0⟩
      = (⟨[], 2, 2, 0⟩, 0) := by
    rw [List.length_replicate]
    rw [scanBuffer_replicate_x 32768 3 1 (by norm_num) ⟨[], 1, 1, 0⟩]
    rw [if_neg (by norm_num)]
  have hs2a : (scanBuffer (List.replicate 32768 'x') 3 1
      ((List.replicate 32768 'x').length - 1)
      (List.replicate 32768 'x').length ⟨[], 1, 1, 0⟩).1 = ⟨[], 2, 2, 0⟩ := by
    rw [hs2]
  have hs2b : (scanBuffer (List.replicate 32768 'x') 3 1
      ((List.replicate 32768 'x').length - 1)
      (List.replicate 32768 'x').length ⟨[], 1, 1, 0⟩).2 = 0 := by
    rw [hs2]
  have hs3 : scanBuffer (List.replicate 32768 'x') 3 1
      ((List.replicate 32768 'x').length - 1)
      (List.replicate 32768 'x').length ⟨[], 2, 2, 0⟩
      = (⟨[], 3, 3, 0⟩, 0) := by
    rw [List.length_replicate]
    rw [scanBuffer_replicate_x 32768 3 1 (by norm_num) ⟨[], 2, 2, 0⟩]
    rw [if_neg (by norm_num)]
  have hs3a : (scanBuffer (List.replicate 32768 'x') 3 1
      ((List.replicate 32768 'x').length - 1)
      (List.replicate 32768 'x').length ⟨[], 2, 2, 0⟩).1 = ⟨[], 3, 3, 0⟩ := by
    rw [hs3]
  have hs3b : (scanBuffer (List.replicate 32768 'x') 3 1
      ((List.replicate 32768 'x').length - 1)
      (List.replicate 32768 'x').length ⟨[], 2, 2, 0⟩).2 = 0 := by
    rw [hs3]
  have hs4 : scanBuffer (List.replicate 32768 'x') 3 1
      ((List.replicate 32768 'x').length - 1)
      (List.replicate 32768 'x').length ⟨[], 3, 3, 0⟩
      = (⟨[List.replicate 32768 'x'], 4, 4, 1⟩, 0) := by
    rw [List.length_replicate]
    rw [scanBuffer_replicate_x 32768 3 1 (by norm_num) ⟨[], 3, 3, 0⟩]
    rw [if_pos (by norm_num)]
    rw [List.nil_append]
  have hs4a : (scanBuffer (List.replicate 32768 'x') 3 1
      ((List.replicate 32768 'x').length - 1)
      (List.replicate 32768 'x').length ⟨[], 3, 3, 0⟩).1
      = ⟨[List.replicate 32768 'x'], 4, 4, 1⟩ := by
    rw [hs4]
  have hs4b : (scanBuffer (List.replicate 32768 'x') 3 1
      ((List.replicate 32768 'x').length - 1)
      (List.replicate 32768 'x').length ⟨[], 3, 3, 0⟩).2 = 0 := by
    rw [hs4]
  simp only [read_logs_chunked]
  rw [bigContent_length]
  rw [show ((4 - 1) * 1 : Nat) = 3 from rfl]
  rw [chunkLoop_succ bigContent 3 1 524288 524288 [] ⟨[], 0, 0, 0⟩
    ⟨by norm_num, Or.inl (by norm_num)⟩]
  rw [List.append_nil, chunkOf_big_first]
  rw [hs1b, List.take_zero, hs1a]
  rw [show chunkStartOf 524288 = 491520 from by unfold chunkStartOf CHUNK_SIZE; norm_num]
  rw [show (524288:Nat) = 524287 + 1 from by norm_num]
  rw [chunkLoop_succ bigContent 3 1 524287 491520 [] ⟨[], 1, 1, 0⟩
    ⟨by norm_num, Or.inl (by norm_num)⟩]
  rw [List.append_nil, chunkOf_big_mid 491520 (by norm_num) (by norm_num)]
  rw [hs2b, List.take_zero, hs2a]
  rw [show chunkStartOf 491520 = 458752 from by unfold chunkStartOf CHUNK_SIZE; norm_num]
  rw [show (524287:Nat) = 524286 + 1 from by norm_num]
  rw [chunkLoop_succ bigContent 3 1 524286 458752 [] ⟨[], 2, 2, 0⟩
    ⟨by norm_num, Or.inl (by norm_num)⟩]
  rw [List.append_nil, chunkOf_big_mid 458752 (by norm_num) (by norm_num)]
  rw [hs3b, List.take_zero, hs3a]
  rw [show chunkStartOf 458752 = 425984 from by unfold chunkStartOf CHUNK_SIZE; norm_num]
  rw [show (524286:Nat) = 524285 + 1 from by norm_num]
  rw [chunkLoop_succ bigContent 3 1 524285 425984 [] ⟨[], 3, 3, 0⟩
    ⟨by norm_num, Or.inl (by norm_num)⟩]
  rw [List.append_nil, chunkOf_big_mid 425984 (by norm_num) (by norm_num)]
  rw [hs4b, List.take_zero, hs4a]
  rw [show chunkStartOf 425984 = 393216 from by unfold chunkStartOf CHUNK_SIZE; norm_num]
  rw [show (524285:Nat) = 524284 + 1 from by norm_num]
  rw [chunkLoop_exit bigContent 3 1 524284 393216 []
    ⟨[List.replicate 32768 'x'], 4, 4, 1⟩ (by
      intro hc
      have h1 : (⟨[List.replicate 32768 'x'], 4, 4, 1⟩ : ScanState).lines_collected = 1 := rfl
      have h2 : (⟨[List.replicate 32768 'x'], 4, 4, 1⟩ : ScanState).total_lines = 4 := rfl
      rw [h1, h2] at hc
      omega)]
  rfl

theorem splitLinesAux_x_run (rest : List Char) : ∀ (k : Nat) (acc : List Char),
    splitLinesAux (List.replicate k 'x' ++ rest) acc
      = splitLinesAux rest (List.replicate k 'x' ++ acc) := by
  intro k
  induction k with
  | zero =>
    intro acc
    rw [show List.replicate 0 'x' = [] from rfl, List.nil_append, List.nil_append]
  | succ n ih =>
    intro acc
    rw [List.replicate_succ, List.cons_append]
    rw [splitLinesAux]
    rw [if_neg (by decide : ¬ ('x':Char) = '\n')]
    rw [ih ('x' :: acc)]
    congr 1
    conv_lhs => rw [← List.singleton_append, ← List.append_assoc,
      ← List.replicate_succ' n 'x', List.replicate_succ, List.cons_append]
    rw [List.cons_append]

theorem readAllLines_bigContent : readAllLines bigContent = [bigContent] := by
  unfold readAllLines bigContent
  rw [splitLinesAux_x_run]
  rw [List.append_nil]
  rw [splitLinesAux]
  rw [if_pos (rfl : ('\n':Char) = '\n')]
  rw [List.reverse_replicate]
  rw [splitLinesAux]
  rw [if_pos (by decide : ([] : List Char).isEmpty = true)]

theorem nonBlankLines_bigContent :
    nonBlankLines bigContent = [List.replicate 524287 'x'] := by
  unfold nonBlankLines
  rw [readAllLines_bigContent]
  rw [List.map_cons, List.map_nil]
  rw [show rtrim bigContent = List.replicate 524287 'x' from by
    unfold bigContent; rw [rtrim_append_nl, rtrim_replicate_x]]
  have hemp : (List.replicate 524287 'x').isEmpty = false := by
    rw [show (524287:Nat) = 524286 + 1 from by norm_num, List.replicate_succ,
      List.isEmpty_cons]
  rw [List.filter_cons, hemp]
  rw [show (!false) = true from rfl]
  rw [if_pos rfl]
  rw [List.filter_nil]

theorem claimed_logs_page_bigContent : claimed_logs_page bigContent 4 1 = ([], 1) := by
  unfold claimed_logs_page
  rw [nonBlankLines_bigContent]
  rfl

theorem reverse_paginated_bigContent :
    read_logs_reverse_paginated bigContent 4 1 = ([List.replicate 32768 'x'], 4) := by
  unfold read_logs_reverse_paginated
  rw [bigContent_length]
  rw [if_neg (by norm_num)]
  rw [if_neg (by
    rintro (h | h)
    · exact absurd h (by unfold SMALL_FILE_LIMIT; norm_num)
    · omega)]
  exact chunked_eval_bigContent

theorem read_logs_simple_bigContent : read_logs_simple bigContent 4 1 = ([], 1) := by
  simp only [read_logs_simple]
  rw [nonBlankLines_bigContent]
  rfl

/-- Claim C1 (counterexample evaluation): the chunked backward scanner does
not coincide with the simple whole-file reader.  On the four-byte log content
`a` newline `b` newline, with page 1 and page_size 50, the chunked reader
returns the pseudo-line made of the whole buffer up to the last processed
newline (the first line merged across an embedded newline) and orders the
page oldest-first, while the simple reader returns the two lines
newest-first.  The readers also disagree in the chunked reader's own regime:
on the 512 KB single-line file `bigContent` with page 4 and page_size 1, a
line spanning the 32 KB chunk boundaries is split into chunk-sized
pseudo-lines and the totals differ. -/
theorem C1_chunked_reader_diverges_from_simple :
    read_logs_chunked c1_content 1 50 = ([['a', '\n', 'b'], ['b']], 2)
    ∧ read_logs_simple c1_content 1 50 = ([['b'], ['a']], 2)
    ∧ read_logs_chunked c1_content 1 50 ≠ read_logs_simple c1_content 1 50
    ∧ read_logs_chunked bigContent 4 1 ≠ read_logs_simple bigContent 4 1 := by
  refine ⟨rfl, rfl, by decide, ?_⟩
  rw [chunked_eval_bigContent, read_logs_simple_bigContent]
  exact fun h => List.cons_ne_nil (List.replicate 32768 'x') []
    (congrArg Prod.fst h)

/-- Claim C5 (counterexample evaluation): for the 512 KB single-line log
`bigContent` and the request page=4, page_size=1, the handler replies with
logs equal to one pseudo-line of 32768 `x` characters (a 32 KB chunk, not a
line of the file) and `total_lines = 4`, while the claim requires the empty
page and `total_lines = 1` (the file holds exactly one non-blank line). -/
theorem C5_logs_endpoint_counterexample :
    handle_process_logs_model bigContent (some 4) (some 1)
      = ([List.replicate 32768 'x'], 4, 4, 1)
    ∧ claimed_logs_page bigContent 4 1 = ([], 1)
    ∧ [List.replicate 32768 'x'] ≠ ([] : List (List Char)) ∧ (4:Nat) ≠ 1 := by
  refine ⟨?_, claimed_logs_page_bigContent, List.cons_ne_nil _ _, by norm_num⟩
  simp only [handle_process_logs_model]
  rw [show max ((some 4).getD 1) 1 = 4 from rfl]
  rw [show max ((some 1).getD 50) 1 = 1 from rfl]
  rw [reverse_paginated_bigContent]
